import Mathlib

/-!
Verification development for the `aqi-forecast-visualizer` repository.

The development shallowly embeds the location-resolution and air-quality
aggregation layer of the dashboard:

* `src/services/aqiService.ts` — the `AQIService` class (multi-source
  aggregator with an in-memory TTL cache, the synthetic data generator and
  the forecast generator);
* `src/services/searchService.ts` — the `SearchService` class (parallel
  fan-out search, deduplication, relevance scoring, ranking, TTL cache);
* `src/components/LocationSearch.tsx` — the short-query favorites/recents
  blending path of the search UI.

Modelling conventions:

* JavaScript numbers are embedded as `ℚ` (the programs only perform
  arithmetic well inside the exactly-representable range of doubles; the
  claims under study are about coarse bounds, orderings and equalities,
  none of which depend on binary rounding).
* `Math.round(x)` and the rounding performed by `Number.prototype.toFixed`
  (round to nearest, half away from zero, i.e. toward the larger candidate)
  are both `fun q => ⌊q + 1/2⌋`, per the ECMAScript specification.
* Epoch timestamps (`Date.now()`, `getTime()`) are embedded as `ℤ`
  milliseconds; ISO-string rendering of a timestamp is not modelled, the
  millisecond value itself is carried instead.
* Network calls are modelled as oracle parameters: an adapter body past its
  credential check becomes a parameter giving the outcome of the HTTP
  request plus payload normalization.  Claims quantify over these oracles.
* `Math.random()` and `Math.sin(...)` are modelled as explicit stream
  parameters; theorems either quantify over them (with the bounds the real
  functions satisfy, where needed) or instantiate them with values the real
  functions can produce.
-/

namespace AQIVis

/- The Batteries rational-number operations are `@[irreducible]`, which
blocks `decide`-style evaluation of the embedding on concrete inputs;
restore semireducibility locally. -/
attribute [local semireducible] Rat.add Rat.mul Rat.inv Rat.sub Rat.ofScientific

/-! ## JavaScript primitives -/

/-- `Math.round` per ECMAScript: round to nearest, half toward +∞. -/
def jsRound (q : ℚ) : ℤ := ⌊q + 1/2⌋

/-- The integer `n` such that `x.toFixed(d)` prints `n / 10^d`, for `x ≥ 0`
(round to nearest, ties to the larger candidate, per ECMAScript). -/
def fixScale (d : ℕ) (q : ℚ) : ℤ := jsRound (q * (10 : ℚ) ^ d)

/-- Left-pad a string with zeros to width `w`. -/
def padZeros (w : ℕ) (s : String) : String :=
  String.mk (List.replicate (w - s.length) '0') ++ s

/-- `x.toFixed(d)` for `x ≥ 0`. -/
def toFixedPos (d : ℕ) (q : ℚ) : String :=
  let n := (fixScale d q).toNat
  let ip := n / 10 ^ d
  let fp := n % 10 ^ d
  if d = 0 then toString ip else toString ip ++ "." ++ padZeros d (toString fp)

/-- `Number.prototype.toFixed`: negative inputs print `-` followed by the
rendering of the absolute value. -/
def toFixedStr (d : ℕ) (q : ℚ) : String :=
  if q < 0 then "-" ++ toFixedPos d (-q) else toFixedPos d q

/-- Does `pat` occur at the head of `l`? -/
def leadMatch : List Char → List Char → Bool
  | [], _ => true
  | _ :: _, [] => false
  | a :: as, b :: bs => a = b && leadMatch as bs

/-- Does `pat` occur anywhere inside `l`?  (`String.prototype.includes`.) -/
def subMatch : List Char → List Char → Bool
  | l, pat =>
    leadMatch pat l ||
      match l with
      | [] => false
      | _ :: t => subMatch t pat

/-- `s.includes(pat)`. -/
def strIncludes (s pat : String) : Bool := subMatch s.toList pat.toList

/-- Lexicographic code-point comparison of character lists. -/
def chCmp : List Char → List Char → ℤ
  | [], [] => 0
  | [], _ :: _ => -1
  | _ :: _, [] => 1
  | a :: as, b :: bs => if a = b then chCmp as bs else if a < b then -1 else 1

/-- `a.localeCompare(b)`, modelled as code-point lexicographic comparison
(default-locale collation is not representable; it agrees with code-point
order on the ASCII names this layer manipulates). -/
def strCmp (a b : String) : ℤ := chCmp a.toList b.toList

/-- `String.prototype.toLowerCase` (ASCII case mapping; every upper-case
character appearing in this layer is ASCII). -/
def jsToLower (s : String) : String := String.mk (s.toList.map Char.toLower)

/-- `s.startsWith(pat)`. -/
def jsStartsWith (s pat : String) : Bool := leadMatch pat.toList s.toList

/-- `String.prototype.trim`. -/
def jsTrim (s : String) : String :=
  String.mk (((s.toList.dropWhile Char.isWhitespace).reverse.dropWhile Char.isWhitespace).reverse)

/-! ## Data model (`src/types/index.ts`, `searchService.ts` interfaces) -/

structure Coordinates where
  lat : ℚ
  lon : ℚ
deriving DecidableEq, Repr

/-- `LocationData` plus the optional fields the services attach
(`state`, `stationId`, `hasMonitoringStation`). -/
structure LocationData where
  city : String
  country : String
  state : Option String := none
  coordinates : Coordinates
  stationId : Option Nat := none
  hasMonitoringStation : Bool := false
deriving DecidableEq, Repr

/-- `AQIData`: the canonical air-quality reading. `timestamp` is the epoch
millisecond value that the source renders as an ISO string. -/
structure AQIData where
  aqi : ℚ
  pm25 : ℚ
  pm10 : ℚ
  o3 : ℚ
  no2 : ℚ
  so2 : ℚ
  co : ℚ
  timestamp : ℤ
  location : LocationData
deriving DecidableEq, Repr

/-- `ForecastData`: one hourly forecast point. -/
structure ForecastData where
  timestamp : ℤ
  aqi : ℤ
  pm25 : ℤ
  pm10 : ℤ
deriving DecidableEq, Repr

/-- The `type` discriminator of a `SearchResult`. -/
inductive SRType where
  | city
  | station
  | coordinate
  | recent
  | favorite
deriving DecidableEq, Repr

/-- `SearchResult` from `searchService.ts` (a `LocationData` extended with
scoring fields; the `type` field is named `rtype` here). -/
structure SearchResult where
  city : String
  country : String
  state : Option String := none
  coordinates : Coordinates
  stationId : Option Nat := none
  hasStation : Bool := false
  relevanceScore : ℚ
  distance : Option ℚ := none
  rtype : SRType
deriving DecidableEq, Repr

/-! ## OpenWeather categorical-AQI normalization (`aqiService.ts` 221–224) -/

/-- `convertOpenWeatherAQI`: `aqiMap[owAqi] || 50` with
`aqiMap = {1: 25, 2: 75, 3: 125, 4: 175, 5: 225}` (no mapped value is
falsy, so `|| 50` fires exactly on lookup misses). -/
def convertOpenWeatherAQI (owAqi : ℚ) : ℚ :=
  if owAqi = 1 then 25
  else if owAqi = 2 then 75
  else if owAqi = 3 then 125
  else if owAqi = 4 then 175
  else if owAqi = 5 then 225
  else 50

/-! ## In-memory TTL caches

`AQIService.cache` is a `Map` keyed by
`aqi_${city}_${lat}_${lon}`; the key is modelled as the triple of its
components.  `SearchService.cache` is an object keyed by
`search_${query.toLowerCase()}_${includeStations}_${includeCoordinates}`,
modelled likewise.  `Map.set` / property assignment overwrite the entry for
a key; modelled as prepending to an association list read by first match,
which has the same lookup semantics. -/

/-- First-match association-list lookup. -/
def assocFind {κ α : Type} [DecidableEq κ] (k : κ) : List (κ × α) → Option α
  | [] => none
  | (k', v) :: t => if k' = k then some v else assocFind k t

/-- One entry of `AQIService.cache`: `{ data, timestamp }`. -/
structure AqiCacheEntry where
  data : AQIData
  timestamp : ℤ
deriving DecidableEq, Repr

/-- `AQIService.CACHE_DURATION = 5 * 60 * 1000`. -/
def AQI_CACHE_DURATION : ℤ := 5 * 60 * 1000

/-- The aggregator cache: fingerprint `(city, lat, lon)` ↦ entry. -/
abbrev AqiCache : Type := List ((String × ℚ × ℚ) × AqiCacheEntry)

/-- The fingerprint of `aqi_${location.city}_${lat}_${lon}`. -/
def aqiCacheKey (loc : LocationData) : String × ℚ × ℚ :=
  (loc.city, loc.coordinates.lat, loc.coordinates.lon)

/-- The cache read at the top of `getCurrentAQI` (lines 23–27): a stored
entry counts only while `Date.now() - cached.timestamp < CACHE_DURATION`. -/
def aqiCacheGet (cache : AqiCache) (k : String × ℚ × ℚ) (now : ℤ) : Option AQIData :=
  match assocFind k cache with
  | some e => if now - e.timestamp < AQI_CACHE_DURATION then some e.data else none
  | none => none

/-- `this.cache.set(cacheKey, { data, timestamp: Date.now() })`. -/
def aqiCacheSet (cache : AqiCache) (k : String × ℚ × ℚ) (d : AQIData) (now : ℤ) : AqiCache :=
  (k, ⟨d, now⟩) :: cache

/-- One entry of `SearchService.cache`: `{ data, timestamp, expiresAt }`. -/
structure SearchCacheEntry where
  data : List SearchResult
  timestamp : ℤ
  expiresAt : ℤ
deriving DecidableEq, Repr

/-- `SearchService.CACHE_DURATION = 10 * 60 * 1000`. -/
def SEARCH_CACHE_DURATION : ℤ := 10 * 60 * 1000

/-- The search cache: key `(lowercased query, includeStations,
includeCoordinates)` ↦ entry. -/
abbrev SearchCache : Type := List ((String × Bool × Bool) × SearchCacheEntry)

/-- The cache read in `searchLocations` (lines 55–59): an entry counts only
while `Date.now() < cached.expiresAt`. -/
def searchCacheGet (cache : SearchCache) (k : String × Bool × Bool) (now : ℤ) :
    Option (List SearchResult) :=
  match assocFind k cache with
  | some e => if now < e.expiresAt then some e.data else none
  | none => none

/-- The cache write in `searchLocations` (lines 106–110):
`{ data, timestamp: Date.now(), expiresAt: Date.now() + CACHE_DURATION }`. -/
def searchCacheSet (cache : SearchCache) (k : String × Bool × Bool)
    (d : List SearchResult) (now : ℤ) : SearchCache :=
  (k, ⟨d, now, now + SEARCH_CACHE_DURATION⟩) :: cache

/-! ## Relevance scoring (`searchService.ts` 255–310) -/

/-- One row update of the Levenshtein matrix (`levenshteinDistance`,
lines 292–310): given row `j-1` (as `prevTail`, its tail, with `diag` the
cell above-left and `left` the cell just written), produce the cells of row
`j` for the remaining characters of `str1`. -/
def levRowAux (y : Char) : List Char → List ℕ → ℕ → ℕ → List ℕ
  | [], _, _, _ => []
  | x :: xs, prevTail, diag, left =>
    match prevTail with
    | [] => []
    | p :: ps =>
      let cell := min (min (left + 1) (p + 1)) (diag + (if x = y then 0 else 1))
      cell :: levRowAux y xs ps p cell

/-- Row `j` of the Levenshtein matrix from row `j-1`. -/
def levRow (y : Char) (s1 : List Char) (j : ℕ) (prev : List ℕ) : List ℕ :=
  j :: levRowAux y s1 (prev.drop 1) (prev.headD 0) j

/-- `levenshteinDistance(str1, str2)`: the dynamic program iterated row by
row; returns the last cell of the last row. -/
def levenshteinDistance (str1 str2 : String) : ℕ :=
  let s1 := str1.toList
  let row0 := List.range (s1.length + 1)
  let last := (str2.toList.foldl
    (fun (acc : ℕ × List ℕ) y => (acc.1 + 1, levRow y s1 (acc.1 + 1) acc.2))
    (0, row0)).2
  last.getLastD 0

/-- `calculateStringSimilarity` (lines 282–290): normalized edit distance
against the longer string. -/
def calculateStringSimilarity (str1 str2 : String) : ℚ :=
  let longer := if str1.length > str2.length then str1 else str2
  let shorter := if str1.length > str2.length then str2 else str1
  if longer.length = 0 then 1
  else ((longer.length : ℚ) - (levenshteinDistance longer shorter : ℚ)) / (longer.length : ℚ)

/-- `calculateCityRelevance` (lines 255–274). -/
def calculateCityRelevance (cityName query : String) : ℚ :=
  let city := jsToLower cityName
  let q := jsToLower query
  if city = q then 100
  else if jsStartsWith city q then 90
  else if strIncludes city (" " ++ q) then 80
  else if strIncludes city q then 70
  else max 0 (calculateStringSimilarity city q * 60)

/-- `calculateStationRelevance` (lines 276–279): the city relevance of the
station name, plus 10. -/
def calculateStationRelevance (stationName query : String) : ℚ :=
  calculateCityRelevance stationName query + 10

/-! ## Coordinate-query parsing (`searchService.ts` 122–151)

`searchByCoordinates` matches the query against the anchored pattern
`^(-?\d+\.?\d*),\s*(-?\d+\.?\d*)$` and applies `parseFloat` to the two
groups.  The pattern is deterministic (digits, an optional dot, digits),
so it is embedded as a hand-rolled parser. -/

/-- Accumulate a digit list into a natural number. -/
def digitsToNat (ds : List Char) : ℕ :=
  ds.foldl (fun n c => 10 * n + (c.toNat - '0'.toNat)) 0

/-- Parse one `-?\d+\.?\d*` group and return its `parseFloat` value plus
the unconsumed input; fails when no leading digit is present. -/
def parseNum (cs : List Char) : Option (ℚ × List Char) :=
  let (neg, cs1) := match cs with
    | '-' :: t => (true, t)
    | _ => (false, cs)
  let intDigits := cs1.takeWhile Char.isDigit
  let cs2 := cs1.drop intDigits.length
  if intDigits.isEmpty then none
  else
    let (fracDigits, rest) := match cs2 with
      | '.' :: t => (t.takeWhile Char.isDigit, t.drop (t.takeWhile Char.isDigit).length)
      | _ => ([], cs2)
    let v : ℚ := (digitsToNat intDigits : ℚ) +
      (if fracDigits.isEmpty then 0
       else (digitsToNat fracDigits : ℚ) / (10 : ℚ) ^ fracDigits.length)
    some (if neg then -v else v, rest)

/-- The full anchored `lat,lon` pattern with its two `parseFloat` values. -/
def parseCoordQuery (s : String) : Option (ℚ × ℚ) :=
  match parseNum s.toList with
  | none => none
  | some (a, rest) =>
    match rest with
    | ',' :: r2 =>
      match parseNum (r2.dropWhile Char.isWhitespace) with
      | some (b, []) => some (a, b)
      | _ => none
    | _ => none

/-! ## Search strategies (`searchService.ts` 122–252, 382–421) -/

/-- The keyless branch of `reverseGeocode` (lines 384–390): with no
OpenWeather key the placeholder location is returned immediately, without
any network access. -/
def reverseGeocodeNoKey (lat lon : ℚ) : LocationData :=
  { city := "Location " ++ toFixedStr 4 lat ++ ", " ++ toFixedStr 4 lon
    country := "Unknown"
    coordinates := ⟨lat, lon⟩ }

/-- `searchByCoordinates` (lines 122–151).  The reverse-geocoding call is
the oracle `rg` (`none` models a thrown error, reaching the catch block;
`reverseGeocodeNoKey` wrapped in `some` is its keyless behaviour). -/
def searchByCoordinates (rg : ℚ → ℚ → Option LocationData) (query : String) :
    List SearchResult :=
  match parseCoordQuery query with
  | none => []
  | some (lat, lon) =>
    if lat < -90 ∨ 90 < lat ∨ lon < -180 ∨ 180 < lon then []
    else
      match rg lat lon with
      | some loc =>
        [{ city := loc.city, country := loc.country, state := loc.state
           coordinates := loc.coordinates, stationId := loc.stationId
           relevanceScore := 100, rtype := .coordinate }]
      | none =>
        [{ city := toFixedStr 4 lat ++ ", " ++ toFixedStr 4 lon
           country := "Coordinates", coordinates := ⟨lat, lon⟩
           relevanceScore := 90, rtype := .coordinate }]

/-- `SearchService.predefinedLocations` (lines 438–459): the built-in
gazetteer. -/
def predefinedLocations : List LocationData :=
  [ { city := "New York", country := "USA", state := some "New York",
      coordinates := ⟨40.7128, -74.0060⟩ },
    { city := "London", country := "UK", coordinates := ⟨51.5074, -0.1278⟩ },
    { city := "Tokyo", country := "Japan", coordinates := ⟨35.6762, 139.6503⟩ },
    { city := "Mumbai", country := "India", state := some "Maharashtra",
      coordinates := ⟨19.0760, 72.8777⟩ },
    { city := "Beijing", country := "China", coordinates := ⟨39.9042, 116.4074⟩ },
    { city := "Los Angeles", country := "USA", state := some "California",
      coordinates := ⟨34.0522, -118.2437⟩ },
    { city := "Paris", country := "France", coordinates := ⟨48.8566, 2.3522⟩ },
    { city := "Sydney", country := "Australia", coordinates := ⟨-33.8688, 151.2093⟩ },
    { city := "São Paulo", country := "Brazil", coordinates := ⟨-23.5505, -46.6333⟩ },
    { city := "Cairo", country := "Egypt", coordinates := ⟨30.0444, 31.2357⟩ },
    { city := "Moscow", country := "Russia", coordinates := ⟨55.7558, 37.6176⟩ },
    { city := "Bangkok", country := "Thailand", coordinates := ⟨13.7563, 100.5018⟩ },
    { city := "Mexico City", country := "Mexico", coordinates := ⟨19.4326, -99.1332⟩ },
    { city := "Jakarta", country := "Indonesia", coordinates := ⟨-6.2088, 106.8456⟩ },
    { city := "Delhi", country := "India", state := some "Delhi",
      coordinates := ⟨28.7041, 77.1025⟩ },
    { city := "Shanghai", country := "China", coordinates := ⟨31.2304, 121.4737⟩ },
    { city := "Berlin", country := "Germany", coordinates := ⟨52.5200, 13.4050⟩ },
    { city := "Toronto", country := "Canada", state := some "Ontario",
      coordinates := ⟨43.6532, -79.3832⟩ },
    { city := "Singapore", country := "Singapore", coordinates := ⟨1.3521, 103.8198⟩ },
    { city := "Dubai", country := "UAE", coordinates := ⟨25.2048, 55.2708⟩ } ]

/-- `searchPredefinedLocations` (lines 237–252). -/
def searchPredefinedLocations (query : String) : List SearchResult :=
  let queryLower := jsToLower query
  ((predefinedLocations.filter fun location =>
      strIncludes (jsToLower location.city) queryLower ||
      strIncludes (jsToLower location.country) queryLower ||
      (match location.state with
       | some st => strIncludes (jsToLower st) queryLower
       | none => false)).map fun location =>
    { city := location.city, country := location.country, state := location.state
      coordinates := location.coordinates, stationId := location.stationId
      relevanceScore := calculateCityRelevance location.city query
      rtype := .city }).take 6

/-- The keyless branch of `searchCities` (lines 155–157): with no
OpenWeather key it degrades to the gazetteer, with no network access. -/
def searchCitiesNoKey (query : String) : List SearchResult :=
  searchPredefinedLocations query

/-! ## Station search (`searchService.ts` 188–234) -/

/-- One raw record of the WAQI `/search/` payload: duck-typed fields, each
possibly missing. -/
structure StationRecord where
  geo : Option (List ℚ)
  name : Option String
  country : Option String
  uid : Nat
deriving DecidableEq, Repr

/-- The filter on station records (lines 205–210):
`station.geo && station.geo.length === 2 && geo[0] !== 0 && geo[1] !== 0`. -/
def keepStation (r : StationRecord) : Bool :=
  match r.geo with
  | some l => l.length = 2 && l.headD 0 ≠ 0 && (l.drop 1).headD 0 ≠ 0
  | none => false

/-- `stationName.split(',')[0].trim()`. -/
def firstCommaField (s : String) : String :=
  jsTrim (String.mk (s.toList.takeWhile (· ≠ ',')))

/-- The normalization of one kept station record (lines 211–227). -/
def normalizeStation (query : String) (r : StationRecord) : SearchResult :=
  let stationName := r.name.getD ""
  { city := firstCommaField stationName
    country := r.country.getD "Unknown"
    coordinates := ⟨(r.geo.getD []).headD 0, ((r.geo.getD []).drop 1).headD 0⟩
    stationId := some r.uid
    hasStation := true
    relevanceScore := calculateStationRelevance stationName query
    rtype := .station }

/-- `searchMonitoringStations` (lines 188–234).  `key` is the WAQI token;
`payload` is the oracle for the HTTP call: `none` models a thrown error, a
non-`ok` status or a missing `data` field (all of which yield `[]`), and
`some records` models a successful payload. -/
def searchMonitoringStations (key : Option String)
    (payload : Option (List StationRecord)) (query : String) : List SearchResult :=
  match key with
  | none => []
  | some _ =>
    match payload with
    | none => []
    | some records =>
      ((records.filter keepStation).map (normalizeStation query)).take 6

/-! ## Deduplication and ranking (`searchService.ts` 313–368) -/

/-- The identity key of `removeDuplicates` (line 316):
`${city.toLowerCase()}_${lat.toFixed(3)}_${lon.toFixed(3)}`, modelled as
the triple of its components. -/
def dedupKey (r : SearchResult) : String × String × String :=
  (jsToLower r.city, toFixedStr 3 r.coordinates.lat, toFixedStr 3 r.coordinates.lon)

/-- The `Set`-based first-occurrence filter of `removeDuplicates`. -/
def removeDupAux (seen : List (String × String × String)) : List SearchResult → List SearchResult
  | [] => []
  | r :: rs =>
    let k := dedupKey r
    if k ∈ seen then removeDupAux seen rs
    else r :: removeDupAux (k :: seen) rs

/-- `removeDuplicates` (lines 313–321). -/
def removeDuplicates (results : List SearchResult) : List SearchResult :=
  removeDupAux [] results

/-- The `typePriority` table of `rankAndFilterResults` (line 351); every
constructor is in the table, so the `|| 0` default is unreachable. -/
def typePriority : SRType → ℤ
  | .station => 3
  | .city => 2
  | .coordinate => 1
  | .recent => 4
  | .favorite => 5

/-- The comparator passed to `Array.prototype.sort` (lines 344–366).
Returns a negative value when `a` must precede `b`. -/
def resultCmp (a b : SearchResult) : ℚ :=
  if a.relevanceScore ≠ b.relevanceScore then b.relevanceScore - a.relevanceScore
  else if typePriority a.rtype ≠ typePriority b.rtype then
    ((typePriority b.rtype - typePriority a.rtype : ℤ) : ℚ)
  else
    match a.distance, b.distance with
    | some da, some db => da - db
    | _, _ => (strCmp a.city b.city : ℚ)

/-- Stable insertion of `x` into a sorted list under `resultCmp`. -/
def sortInsert (x : SearchResult) : List SearchResult → List SearchResult
  | [] => [x]
  | y :: ys => if resultCmp x y ≤ 0 then x :: y :: ys else y :: sortInsert x ys

/-- Stable sort under `resultCmp`, modelling `Array.prototype.sort` (whose
implementation is a stable sort; for a consistent comparator every stable
sort produces the same output). -/
def sortResults : List SearchResult → List SearchResult
  | [] => []
  | x :: xs => sortInsert x (sortResults xs)

/-- `rankAndFilterResults` (lines 324–368).  When a `currentLocation` is
supplied the code assigns `result.distance` via `calculateDistance`
(haversine — transcendental, so modelled as the supplied function
`distFn`); with no `currentLocation` distances are left untouched.  The
`query` parameter is unused by the source body and kept for fidelity. -/
def rankAndFilterResults (distFn : Option (Coordinates → ℚ))
    (results : List SearchResult) (query : String) (maxResults : ℕ) :
    List SearchResult :=
  let withDist := match distFn with
    | none => results
    | some g => results.map fun r => { r with distance := some (g r.coordinates) }
  (sortResults withDist).take maxResults

/-! ## `searchLocations` with zero configured credentials
(`searchService.ts` 35–119)

With no OpenWeather and no WAQI key, every strategy is synchronous and
network-free: the coordinate strategy reverse-geocodes through the keyless
placeholder branch, the city strategy degrades to the gazetteer, the
station strategy is not dispatched (`includeStations && WAQI_API_KEY`
fails), and the gazetteer strategy always runs.  `Promise.allSettled`
preserves dispatch order, so the fulfilled results concatenate in that
order. -/

/-- `SearchService.MAX_RESULTS`. -/
def MAX_RESULTS : ℕ := 12

/-- `searchLocations(query, currentLocation?, options)` in the
zero-credential configuration, with default options
(`includeStations = true`, `includeCoordinates = true`) and no
`currentLocation`.  Returns the result list and the updated cache. -/
def searchLocationsKeyless (query : String) (cache : SearchCache) (now : ℤ)
    (maxResults : ℕ) : List SearchResult × SearchCache :=
  if query.length < 2 then ([], cache)
  else
    let cacheKey := ("search_" ++ jsToLower query, true, true)
    match searchCacheGet cache cacheKey now with
    | some data => (rankAndFilterResults none data query maxResults, cache)
    | none =>
      let allResults :=
        searchByCoordinates (fun lat lon => some (reverseGeocodeNoKey lat lon)) query ++
        searchCitiesNoKey query ++
        searchPredefinedLocations query
      let uniqueResults := removeDuplicates allResults
      let rankedResults := rankAndFilterResults none uniqueResults query maxResults
      (rankedResults, searchCacheSet cache cacheKey rankedResults now)

/-! ## Aggregator (`aqiService.ts` 19–51, 428–449, 475–484) -/

/-- The three configurable credentials (`VITE_WAQI_API_KEY`,
`VITE_OPENWEATHER_API_KEY`, `VITE_IQAIR_API_KEY`). -/
structure Config where
  waqiKey : Option String
  openWeatherKey : Option String
  iqairKey : Option String
deriving DecidableEq, Repr

/-- `getWAQIData` (lines 54–95): throws immediately when the key is not
configured; otherwise the HTTP call plus payload normalization is the
oracle outcome. -/
def getWAQIData (cfg : Config) (oracle : Except String AQIData) : Except String AQIData :=
  match cfg.waqiKey with
  | none => .error "WAQI API key not configured"
  | some _ => oracle

/-- `getOpenWeatherAQI` (lines 98–130): same shape as `getWAQIData`. -/
def getOpenWeatherAQI (cfg : Config) (oracle : Except String AQIData) : Except String AQIData :=
  match cfg.openWeatherKey with
  | none => .error "OpenWeather API key not configured"
  | some _ => oracle

/-- `getIQAirData` (lines 133–169): same shape as `getWAQIData`. -/
def getIQAirData (cfg : Config) (oracle : Except String AQIData) : Except String AQIData :=
  match cfg.iqairKey with
  | none => .error "IQAir API key not configured"
  | some _ => oracle

/-- `getLocationBaseAQI` (lines 475–484). -/
def getLocationBaseAQI (city : String) : ℚ :=
  if city = "New York" then 85
  else if city = "London" then 65
  else if city = "Tokyo" then 75
  else if city = "Mumbai" then 150
  else if city = "Beijing" then 120
  else if city = "Los Angeles" then 95
  else if city = "Paris" then 70
  else if city = "Sydney" then 45
  else if city = "São Paulo" then 110
  else if city = "Cairo" then 140
  else if city = "Moscow" then 90
  else if city = "Bangkok" then 130
  else if city = "Mexico City" then 135
  else if city = "Jakarta" then 125
  else if city = "Delhi" then 160
  else if city = "Current Location" then 80
  else 80

/-- The non-deterministic inputs of `getMockAQI` (lines 428–449):
`hourSin` stands for `Math.sin((timeOfDay - 6) * Math.PI / 12)` and each
`r…` field for one `Math.random()` draw, in source order. -/
structure MockEnv where
  hourSin : ℚ
  rVariation : ℚ
  rWeather : ℚ
  rPm25 : ℚ
  rPm10 : ℚ
  rO3 : ℚ
  rNo2 : ℚ
  rSo2 : ℚ
  rCo : ℚ
deriving DecidableEq, Repr

/-- `getMockAQI` (lines 428–449): the synthetic reading generator. -/
def getMockAQI (loc : LocationData) (now : ℤ) (e : MockEnv) : AQIData :=
  let baseAqi := getLocationBaseAQI loc.city
  let timeVariation := e.hourSin * 20
  let randomVariation := (e.rVariation - 1/2) * 30
  let weatherFactor : ℚ := if e.rWeather > 7/10 then -20 else 0
  let variation := timeVariation + randomVariation + weatherFactor
  let aqi : ℤ := max 10 (min 300 (jsRound (baseAqi + variation)))
  { aqi := (aqi : ℚ)
    pm25 := (jsRound ((aqi : ℚ) * (6/10) + e.rPm25 * 20) : ℚ)
    pm10 := (jsRound ((aqi : ℚ) * (8/10) + e.rPm10 * 30) : ℚ)
    o3 := (jsRound ((aqi : ℚ) * (4/10) + e.rO3 * 15) : ℚ)
    no2 := (jsRound ((aqi : ℚ) * (3/10) + e.rNo2 * 10) : ℚ)
    so2 := (jsRound ((aqi : ℚ) * (2/10) + e.rSo2 * 8) : ℚ)
    co := (jsRound ((aqi : ℚ) * 10 + e.rCo * 500) : ℚ)
    timestamp := now
    location := loc }

/-- `getCurrentAQI` (lines 19–51): check the cache, try the three adapters
in priority order caching the first success, and fall back to the
synthetic generator (whose result is returned directly).  Returns the
reading and the cache that the call leaves behind. -/
def getCurrentAQI (cfg : Config) (oW oO oI : Except String AQIData)
    (cache : AqiCache) (now : ℤ) (loc : LocationData) (e : MockEnv) :
    AQIData × AqiCache :=
  let cacheKey := aqiCacheKey loc
  match aqiCacheGet cache cacheKey now with
  | some d => (d, cache)
  | none =>
    match getWAQIData cfg oW with
    | .ok d => (d, aqiCacheSet cache cacheKey d now)
    | .error _ =>
      match getOpenWeatherAQI cfg oO with
      | .ok d => (d, aqiCacheSet cache cacheKey d now)
      | .error _ =>
        match getIQAirData cfg oI with
        | .ok d => (d, aqiCacheSet cache cacheKey d now)
        | .error _ => (getMockAQI loc now e, cache)

/-- The data-model well-formedness of an `AirQualityReading` (spec §3):
`aqi ∈ [0,500]`, every pollutant non-negative, and the reading carries the
requested location. -/
def wellFormedReading (loc : LocationData) (d : AQIData) : Prop :=
  0 ≤ d.aqi ∧ d.aqi ≤ 500 ∧
  0 ≤ d.pm25 ∧ 0 ≤ d.pm10 ∧ 0 ≤ d.o3 ∧ 0 ≤ d.no2 ∧ 0 ≤ d.so2 ∧ 0 ≤ d.co ∧
  d.location = loc

/-! ## Forecast generation (`aqiService.ts` 343–407) -/

/-- `getLocationAQIFactors` (lines 396–407). -/
structure LocationFactors where
  baseVariation : ℤ
  seasonalFactor : ℚ
deriving DecidableEq, Repr

/-- `getLocationAQIFactors` (lines 396–407). -/
def getLocationAQIFactors (city : String) : LocationFactors :=
  if city = "Beijing" then ⟨20, 3/2⟩
  else if city = "Mumbai" then ⟨25, 13/10⟩
  else if city = "Los Angeles" then ⟨10, 11/10⟩
  else if city = "London" then ⟨-5, 9/10⟩
  else if city = "Sydney" then ⟨-15, 8/10⟩
  else if city = "Tokyo" then ⟨5, 1⟩
  else ⟨0, 1⟩

/-- The non-deterministic inputs of `generateRealisticForecast`, one value
per loop iteration `i`:
`hourOf i` is `new Date(now + i·3600000).getHours()` (local time, hence a
parameter), `dayOf i` is `.getDay()`, `weatherSin i` is
`Math.sin(i * Math.PI / 12)`, and `rVar`/`rPm25`/`rPm10` are the three
`Math.random()` draws of the iteration, in source order. -/
structure ForecastEnv where
  hourOf : ℕ → ℕ
  dayOf : ℕ → ℕ
  weatherSin : ℕ → ℚ
  rVar : ℕ → ℚ
  rPm25 : ℕ → ℚ
  rPm10 : ℕ → ℚ

/-- The body of the 48-iteration loop of `generateRealisticForecast`
(lines 364–391), producing the points from iteration `i` on, with `fuel`
iterations remaining and `baseAqi` the mutable accumulator. -/
def forecastLoop (env : ForecastEnv) (now : ℤ) (weeklyTrend : ℚ) (bv : ℤ) :
    ℕ → ℕ → ℚ → List ForecastData
  | 0, _, _ => []
  | fuel + 1, i, baseAqi =>
    let timestamp := now + (i : ℤ) * 3600000
    let hour := env.hourOf i
    let dayOfWeek := env.dayOf i
    let rushHourFactor : ℚ := if (7 ≤ hour ∧ hour ≤ 9) ∨ (17 ≤ hour ∧ hour ≤ 19) then 15 else 0
    let nightTimeFactor : ℚ := if 22 ≤ hour ∨ hour ≤ 6 then -10 else 0
    let weekendFactor : ℚ := if dayOfWeek = 0 ∨ dayOfWeek = 6 then -5 else 0
    let weatherVariation := env.weatherSin i * 8
    let randomVariation := (env.rVar i - 1/2) * 10
    let totalVariation := rushHourFactor + nightTimeFactor + weekendFactor +
      weatherVariation + randomVariation + weeklyTrend * (i : ℚ) / 24
    let baseAqi' := max 10 (min 300 (baseAqi + totalVariation * (1/10)))
    let aqi := jsRound (baseAqi' + (bv : ℚ))
    { timestamp := timestamp
      aqi := aqi
      pm25 := jsRound ((aqi : ℚ) * (6/10) + env.rPm25 i * 10)
      pm10 := jsRound ((aqi : ℚ) * (8/10) + env.rPm10 i * 15) } ::
      forecastLoop env now weeklyTrend bv fuel (i + 1) baseAqi'

/-- `generateRealisticForecast` (lines 343–394).  `historicalData` carries
the AQI values of the optional historical payload (`[]` models the absent
argument, which short-circuits the `historicalData &&` guard exactly like
an empty list). -/
def generateRealisticForecast (currentAqi : ℚ) (city : String)
    (historicalData : List ℚ) (now : ℤ) (env : ForecastEnv) : List ForecastData :=
  let weeklyTrend : ℚ :=
    if historicalData.length > 0 then
      (currentAqi - historicalData.sum / (historicalData.length : ℚ)) / 7
    else 0
  let factors := getLocationAQIFactors city
  forecastLoop env now weeklyTrend factors.baseVariation 48 0 currentAqi

/-! ## Short-query blending in the search UI (`LocationSearch.tsx` 60–76) -/

/-- One entry of the list the UI shows for a short query. -/
structure UISearchResult where
  loc : LocationData
  isFavorite : Bool := false
  isRecent : Bool := false
  rtype : SRType
deriving DecidableEq, Repr

/-- The `query.length < 2` branch of `debouncedSearch` (lines 61–76):
favorites first, then recents not shadowed by a favorite with the same
city and country, capped to 8. -/
def shortQueryResults (favorites recents : List LocationData) : List UISearchResult :=
  ((favorites.map fun l =>
      ({ loc := l, isFavorite := true, rtype := .favorite } : UISearchResult)) ++
   ((recents.filter fun recent =>
       !(favorites.any fun fav =>
         fav.city == recent.city && fav.country == recent.country)).map
     fun l => ({ loc := l, isRecent := true, rtype := .recent } : UISearchResult))).take 8

/-- `debouncedSearch` (lines 60–129) as a dispatcher: a short query is
answered from local state, a longer query through the network-backed
`SearchService` path, modelled by the oracle `net`. -/
def debouncedSearch (net : String → List UISearchResult) (query : String)
    (favorites recents : List LocationData) : List UISearchResult :=
  if query.length < 2 then shortQueryResults favorites recents
  else net query

/-! ## Spec-side comparison definitions

The following definitions are written from the words of the claims (not
from the source); each is compared against the corresponding source
embedding by a refinement theorem. -/

/-- The short-query blend as C4 words it: favorite locations first, then
recent locations deduplicated against favorites, capped to 8 entries. -/
def specBlendedShortQuery (favorites recents : List LocationData) : List UISearchResult :=
  let favoriteEntries := favorites.map fun l =>
    ({ loc := l, isFavorite := true, rtype := .favorite } : UISearchResult)
  let dedupedRecents := recents.filter fun recent =>
    !(favorites.any fun fav => fav.city == recent.city && fav.country == recent.country)
  let recentEntries := dedupedRecents.map fun l =>
    ({ loc := l, isRecent := true, rtype := .recent } : UISearchResult)
  (favoriteEntries ++ recentEntries).take 8

/-- The drop condition as C9 words it: the record is dropped exactly when
its geo field is missing, is not a two-element array, or equals the
coordinate pair (0,0). -/
def claimedStationDrop (r : StationRecord) : Bool :=
  match r.geo with
  | none => true
  | some l => l.length ≠ 2 || l = [0, 0]

/-- The drop condition as amended for C9: the record is dropped exactly
when its geo field is missing, is not a two-element array, or has either
coordinate equal to 0. -/
def amendedStationDrop (r : StationRecord) : Bool :=
  match r.geo with
  | none => true
  | some l => l.length ≠ 2 || l.headD 0 = 0 || (l.drop 1).headD 0 = 0

/-- A concrete `MockEnv` with all random draws at 1/2, used for witness
instantiations. -/
def sampleHalfEnv : MockEnv :=
  { hourSin := 0, rVariation := 1/2, rWeather := 1/2, rPm25 := 1/2, rPm10 := 1/2,
    rO3 := 1/2, rNo2 := 1/2, rSo2 := 1/2, rCo := 1/2 }

/-- A concrete `MockEnv` with all random draws at 0. -/
def sampleZeroEnv : MockEnv :=
  { hourSin := 1, rVariation := 0, rWeather := 0, rPm25 := 0, rPm10 := 0,
    rO3 := 0, rNo2 := 0, rSo2 := 0, rCo := 0 }

/-- A location absent from every built-in table. -/
def nowhereLoc : LocationData :=
  { city := "Nowhere", country := "ZZ", coordinates := ⟨3, 4⟩ }

/-- The New York location of the built-in tables. -/
def nycLoc : LocationData :=
  { city := "New York", country := "USA", coordinates := ⟨40.7128, -74.0060⟩ }

/-- The Cairo location of the built-in tables. -/
def cairoLoc : LocationData :=
  { city := "Cairo", country := "Egypt", coordinates := ⟨30.0444, 31.2357⟩ }

/-- The search result the keyless search produces for the query "tokyo". -/
def tokyoResult : SearchResult :=
  { city := "Tokyo", country := "Japan", coordinates := ⟨35.6762, 139.6503⟩,
    relevanceScore := 100, rtype := .city }

/-- A concrete reading used for witness instantiations. -/
def witnessReading : AQIData :=
  { aqi := 50, pm25 := 1, pm10 := 2, o3 := 3, no2 := 4, so2 := 5, co := 6,
    timestamp := 0,
    location := { city := "X", country := "Y", coordinates := ⟨0, 0⟩ } }

/-! # Theorems -/

/-! ## Shared lemmas -/

/-- `removeDupAux` returns a sublist of its input. -/
theorem removeDupAux_sublist (seen : List (String × String × String))
    (l : List SearchResult) : List.Sublist (removeDupAux seen l) l := by
  induction l generalizing seen with
  | nil => simp [removeDupAux]
  | cons r rs ih =>
    simp only [removeDupAux]
    split_ifs with hmem
    · exact (ih seen).cons r
    · exact (ih _).cons₂ r

/-- No output of `removeDupAux` carries a key already seen. -/
theorem removeDupAux_not_seen (seen : List (String × String × String))
    (l : List SearchResult) :
    ∀ y ∈ removeDupAux seen l, dedupKey y ∉ seen := by
  induction l generalizing seen with
  | nil => simp [removeDupAux]
  | cons r rs ih =>
    intro y hy
    simp only [removeDupAux] at hy
    split_ifs at hy with hmem
    · exact ih seen y hy
    · rcases List.mem_cons.mp hy with heq | hy'
      · rw [heq]; exact hmem
      · intro hcon
        exact ih _ y hy' (List.mem_cons_of_mem _ hcon)

/-- The keys of the output of `removeDupAux` are pairwise distinct. -/
theorem removeDupAux_pairwise (seen : List (String × String × String))
    (l : List SearchResult) :
    (removeDupAux seen l).Pairwise (fun a b => dedupKey a ≠ dedupKey b) := by
  induction l generalizing seen with
  | nil => simp [removeDupAux]
  | cons r rs ih =>
    simp only [removeDupAux]
    split_ifs with hmem
    · exact ih seen
    · refine List.Pairwise.cons ?_ (ih _)
      intro b hb heq
      exact removeDupAux_not_seen _ _ b hb (heq ▸ List.mem_cons_self _ _)

/-- Every input key of `removeDupAux` is either already seen or represented
in the output. -/
theorem removeDupAux_covers (seen : List (String × String × String))
    (l : List SearchResult) :
    ∀ x ∈ l, dedupKey x ∈ seen ∨ ∃ y ∈ removeDupAux seen l, dedupKey y = dedupKey x := by
  induction l generalizing seen with
  | nil => simp
  | cons r rs ih =>
    intro x hx
    simp only [removeDupAux]
    split_ifs with hmem
    · rcases List.mem_cons.mp hx with heq | hx'
      · exact Or.inl (by rw [heq]; exact hmem)
      · exact ih seen x hx'
    · rcases List.mem_cons.mp hx with heq | hx'
      · exact Or.inr ⟨r, List.mem_cons_self _ _, by rw [heq]⟩
      · rcases ih (dedupKey r :: seen) x hx' with hin | ⟨y, hy, hkey⟩
        · rcases List.mem_cons.mp hin with heq | hseen
          · exact Or.inr ⟨r, List.mem_cons_self _ _, heq.symm⟩
          · exact Or.inl hseen
        · exact Or.inr ⟨y, List.mem_cons_of_mem _ hy, hkey⟩

/-- The normalized similarity never exceeds 1. -/
theorem similarity_le_one (s1 s2 : String) : calculateStringSimilarity s1 s2 ≤ 1 := by
  unfold calculateStringSimilarity
  dsimp only
  split_ifs <;> try norm_num
  all_goals
    refine div_le_one_of_le ?_ ?_
    · refine sub_le_self _ ?_
      positivity
    · positivity

/-- The city relevance score is bounded by [0, 100]. -/
theorem cityRelevance_bounds (cityName query : String) :
    0 ≤ calculateCityRelevance cityName query ∧ calculateCityRelevance cityName query ≤ 100 := by
  unfold calculateCityRelevance
  dsimp only
  split_ifs <;> try norm_num
  have h1 := similarity_le_one (jsToLower cityName) (jsToLower query)
  nlinarith

/-- C8: after `set(k, d)` at time `t`, a `get(k)` at any `now` before
`expiresAt = t + TTL` returns `d` unchanged, and a `get(k)` at any
`now ≥ expiresAt` returns absent even though the entry is still physically
stored; this holds for both the aggregator cache (5-minute TTL, freshness
test `now - timestamp < TTL`) and the search cache (10-minute TTL,
freshness test `now < expiresAt`). -/
theorem c8_cache_ttl (ca : AqiCache) (cs : SearchCache) (k : String × ℚ × ℚ)
    (ks : String × Bool × Bool) (d : AQIData) (ds : List SearchResult) (t now : ℤ) :
    (now < t + AQI_CACHE_DURATION →
      aqiCacheGet (aqiCacheSet ca k d t) k now = some d) ∧
    (t + AQI_CACHE_DURATION ≤ now →
      assocFind k (aqiCacheSet ca k d t) = some ⟨d, t⟩ ∧
      aqiCacheGet (aqiCacheSet ca k d t) k now = none) ∧
    (now < t + SEARCH_CACHE_DURATION →
      searchCacheGet (searchCacheSet cs ks ds t) ks now = some ds) ∧
    (t + SEARCH_CACHE_DURATION ≤ now →
      assocFind ks (searchCacheSet cs ks ds t) = some ⟨ds, t, t + SEARCH_CACHE_DURATION⟩ ∧
      searchCacheGet (searchCacheSet cs ks ds t) ks now = none) := by
  refine ⟨?_, ?_, ?_, ?_⟩ <;> intro h
  · have hc : now - t < 300000 := by simp only [AQI_CACHE_DURATION] at h; omega
    simp [aqiCacheGet, aqiCacheSet, assocFind, AQI_CACHE_DURATION, hc]
  · have hc : ¬ (now - t < 300000) := by simp only [AQI_CACHE_DURATION] at h; omega
    refine ⟨by simp [aqiCacheSet, assocFind], ?_⟩
    simp [aqiCacheGet, aqiCacheSet, assocFind, AQI_CACHE_DURATION, hc]
  · have hc : now < t + 600000 := by simp only [SEARCH_CACHE_DURATION] at h; omega
    simp [searchCacheGet, searchCacheSet, assocFind, SEARCH_CACHE_DURATION, hc]
  · have hc : ¬ (now < t + 600000) := by simp only [SEARCH_CACHE_DURATION] at h; omega
    refine ⟨by simp [searchCacheSet, assocFind], ?_⟩
    simp [searchCacheGet, searchCacheSet, assocFind, SEARCH_CACHE_DURATION, hc]

/-- Witness for C8 at a concrete key, datum and times: a hit 1000 ms after
the set, a logical miss exactly at the 5-minute boundary (aggregator
cache), a hit 1 ms before and a miss exactly at the 10-minute boundary
(search cache). -/
theorem c8_cache_ttl_witness :
    aqiCacheGet (aqiCacheSet [] ("A", 0, 0) witnessReading 0) ("A", 0, 0) 1000 =
      some witnessReading ∧
    aqiCacheGet (aqiCacheSet [] ("A", 0, 0) witnessReading 0) ("A", 0, 0) 300000 = none ∧
    searchCacheGet (searchCacheSet [] ("q", true, true) [] 0) ("q", true, true) 599999 =
      some [] ∧
    searchCacheGet (searchCacheSet [] ("q", true, true) [] 0) ("q", true, true) 600000 =
      none := by
  refine ⟨?_, ?_, ?_, ?_⟩
  · exact (c8_cache_ttl [] [] ("A", 0, 0) ("q", true, true) witnessReading [] 0 1000).1
      (by norm_num [AQI_CACHE_DURATION])
  · exact ((c8_cache_ttl [] [] ("A", 0, 0) ("q", true, true) witnessReading [] 0 300000).2.1
      (by norm_num [AQI_CACHE_DURATION])).2
  · exact (c8_cache_ttl [] [] ("A", 0, 0) ("q", true, true) witnessReading [] 0 599999).2.2.1
      (by norm_num [SEARCH_CACHE_DURATION])
  · exact ((c8_cache_ttl [] [] ("A", 0, 0) ("q", true, true) witnessReading [] 0 600000).2.2.2
      (by norm_num [SEARCH_CACHE_DURATION])).2

/-- C10: `calculateCityRelevance` always returns a score in [0, 100];
`calculateStationRelevance` returns that score plus 10, hence a station
whose name exactly matches the query scores 110; coordinate results carry
scores ≤ 100, so an exactly-matching station outranks every city or
coordinate result. -/
theorem c10_relevance_bounds_and_station_boost :
    (∀ c q : String,
      0 ≤ calculateCityRelevance c q ∧ calculateCityRelevance c q ≤ 100) ∧
    (∀ s q : String,
      calculateStationRelevance s q = calculateCityRelevance s q + 10) ∧
    (∀ s q : String, jsToLower s = jsToLower q → calculateStationRelevance s q = 110) ∧
    (∀ (rg : ℚ → ℚ → Option LocationData) (q : String) (r : SearchResult),
      r ∈ searchByCoordinates rg q → r.relevanceScore ≤ 100) ∧
    (∀ s q c q' : String, jsToLower s = jsToLower q →
      calculateCityRelevance c q' < calculateStationRelevance s q) := by
  have hexact : ∀ s q : String, jsToLower s = jsToLower q →
      calculateStationRelevance s q = 110 := by
    intro s q h
    unfold calculateStationRelevance calculateCityRelevance
    dsimp only
    rw [if_pos h]
    norm_num
  refine ⟨cityRelevance_bounds, fun _ _ => rfl, hexact, ?_, ?_⟩
  · intro rg q r hr
    unfold searchByCoordinates at hr
    rcases hpc : parseCoordQuery q with _ | ⟨lat, lon⟩ <;> rw [hpc] at hr <;>
      dsimp only at hr
    · simp at hr
    · split_ifs at hr
      · simp at hr
      · rcases hrg : rg lat lon with _ | loc <;> rw [hrg] at hr <;> dsimp only at hr <;>
          simp only [List.mem_singleton] at hr <;> subst hr <;> norm_num
  · intro s q c q' h
    have h1 := (cityRelevance_bounds c q').2
    have h2 := hexact s q h
    rw [h2]
    linarith

/-- Witness for C10 at concrete inputs: an exactly matching station name
scores 110, which outranks a concrete city score, and the concrete
coordinate fallback result of the query "1,2" carries score ≤ 100. -/
theorem c10_relevance_witness :
    calculateStationRelevance "Tokyo Station" "tokyo station" = 110 ∧
    calculateCityRelevance "Paris" "berlin" < calculateStationRelevance "Tokyo Station" "tokyo station" ∧
    (({ city := "1.0000, 2.0000", country := "Coordinates", coordinates := ⟨1, 2⟩,
        relevanceScore := 90, rtype := .coordinate } : SearchResult)).relevanceScore ≤ 100 := by
  refine ⟨?_, ?_, ?_⟩
  · exact c10_relevance_bounds_and_station_boost.2.2.1 "Tokyo Station" "tokyo station" (by decide)
  · exact c10_relevance_bounds_and_station_boost.2.2.2.2 "Tokyo Station" "tokyo station"
      "Paris" "berlin" (by decide)
  · exact c10_relevance_bounds_and_station_boost.2.2.2.1 (fun _ _ => none) "1,2" _ (by decide)

/-- C7: the OpenWeather categorical-AQI normalization maps 1→25, 2→75,
3→125, 4→175, 5→225, maps every value outside 1–5 to the default 50, and
is monotonically increasing on 1–5. -/
theorem c7_convertOpenWeatherAQI_spec :
    (convertOpenWeatherAQI 1 = 25 ∧ convertOpenWeatherAQI 2 = 75 ∧
     convertOpenWeatherAQI 3 = 125 ∧ convertOpenWeatherAQI 4 = 175 ∧
     convertOpenWeatherAQI 5 = 225) ∧
    (∀ v : ℚ, v ∉ ({1, 2, 3, 4, 5} : Set ℚ) → convertOpenWeatherAQI v = 50) ∧
    (∀ v w : ℚ, v ∈ ({1, 2, 3, 4, 5} : Set ℚ) → w ∈ ({1, 2, 3, 4, 5} : Set ℚ) →
      v < w → convertOpenWeatherAQI v < convertOpenWeatherAQI w) := by
  refine ⟨⟨rfl, rfl, rfl, rfl, rfl⟩, ?_, ?_⟩
  · intro v hv
    simp only [Set.mem_insert_iff, Set.mem_singleton_iff, not_or] at hv
    obtain ⟨h1, h2, h3, h4, h5⟩ := hv
    simp [convertOpenWeatherAQI, h1, h2, h3, h4, h5]
  · intro v w hv hw hlt
    simp only [Set.mem_insert_iff, Set.mem_singleton_iff] at hv hw
    rcases hv with rfl | rfl | rfl | rfl | rfl <;>
      rcases hw with rfl | rfl | rfl | rfl | rfl <;>
      first
        | linarith
        | norm_num [convertOpenWeatherAQI]

/-- Witness for C7 at concrete inputs: 7 is outside 1–5 and maps to 50;
2 < 3 maps to 75 < 125. -/
theorem c7_convertOpenWeatherAQI_spec_witness :
    convertOpenWeatherAQI 7 = 50 ∧ convertOpenWeatherAQI 2 < convertOpenWeatherAQI 3 := by
  constructor
  · exact c7_convertOpenWeatherAQI_spec.2.1 7 (by norm_num)
  · exact c7_convertOpenWeatherAQI_spec.2.2 2 3 (by norm_num) (by norm_num) (by norm_num)

/-- C4: for every query of length < 2, the search UI answers from local
state only — the result is independent of the network-backed search path —
and equals the blended list: favorite locations first, then recent
locations deduplicated against favorites, capped to 8 entries. -/
theorem c4_short_query_blend (query : String) (favorites recents : List LocationData)
    (h : query.length < 2) :
    (∀ net net' : String → List UISearchResult,
      debouncedSearch net query favorites recents =
        debouncedSearch net' query favorites recents) ∧
    ∀ net : String → List UISearchResult,
      debouncedSearch net query favorites recents =
        specBlendedShortQuery favorites recents := by
  constructor
  · intro net net'
    simp [debouncedSearch, h]
  · intro net
    simp only [debouncedSearch, if_pos h]
    rfl

/-- Witness for C4 at the concrete query "x" with one favorite and two
recents (one shadowed by the favorite), under two distinct network
oracles. -/
theorem c4_short_query_blend_witness :
    debouncedSearch (fun _ => []) "x"
      [{ city := "Paris", country := "France", coordinates := ⟨48.8566, 2.3522⟩ }]
      [{ city := "Paris", country := "France", coordinates := ⟨48.8566, 2.3522⟩ },
       { city := "Cairo", country := "Egypt", coordinates := ⟨30.0444, 31.2357⟩ }] =
      specBlendedShortQuery
        [{ city := "Paris", country := "France", coordinates := ⟨48.8566, 2.3522⟩ }]
        [{ city := "Paris", country := "France", coordinates := ⟨48.8566, 2.3522⟩ },
         { city := "Cairo", country := "Egypt", coordinates := ⟨30.0444, 31.2357⟩ }] ∧
    debouncedSearch (fun _ => []) "x"
      [{ city := "Paris", country := "France", coordinates := ⟨48.8566, 2.3522⟩ }]
      [{ city := "Paris", country := "France", coordinates := ⟨48.8566, 2.3522⟩ },
       { city := "Cairo", country := "Egypt", coordinates := ⟨30.0444, 31.2357⟩ }] =
    debouncedSearch
      (fun q => [{ loc := { city := q, country := "?", coordinates := ⟨0, 0⟩ },
                   rtype := .city }]) "x"
      [{ city := "Paris", country := "France", coordinates := ⟨48.8566, 2.3522⟩ }]
      [{ city := "Paris", country := "France", coordinates := ⟨48.8566, 2.3522⟩ },
       { city := "Cairo", country := "Egypt", coordinates := ⟨30.0444, 31.2357⟩ }] := by
  constructor
  · exact (c4_short_query_blend "x" _ _ (by decide)).2 _
  · exact (c4_short_query_blend "x" _ _ (by decide)).1 _ _

/-- C5 counterexample: two results sharing city and country (but with
coordinates differing by more than the 3-decimal rounding) do not
collapse, and two results with coordinates within 0.01° on both axes (but
distinct cities) do not collapse either — all four inputs survive
`removeDuplicates`. -/
theorem c5_dedup_counterexample :
    removeDuplicates
      [ { city := "Springfield", country := "USA", coordinates := ⟨10, 10⟩,
          relevanceScore := 50, rtype := .city },
        { city := "Springfield", country := "USA", coordinates := ⟨20, 20⟩,
          relevanceScore := 50, rtype := .city },
        { city := "Aville", country := "X", coordinates := ⟨1, 1⟩,
          relevanceScore := 50, rtype := .city },
        { city := "Bville", country := "X", coordinates := ⟨1.006, 1.006⟩,
          relevanceScore := 50, rtype := .city } ] =
      [ { city := "Springfield", country := "USA", coordinates := ⟨10, 10⟩,
          relevanceScore := 50, rtype := .city },
        { city := "Springfield", country := "USA", coordinates := ⟨20, 20⟩,
          relevanceScore := 50, rtype := .city },
        { city := "Aville", country := "X", coordinates := ⟨1, 1⟩,
          relevanceScore := 50, rtype := .city },
        { city := "Bville", country := "X", coordinates := ⟨1.006, 1.006⟩,
          relevanceScore := 50, rtype := .city } ] ∧
    ((1.006 : ℚ) - 1 ≤ 1/100 ∧ (1.006 : ℚ) - 1 ≤ 1/100) := by
  constructor
  · decide
  · constructor <;> norm_num

/-- C5 as amended: `removeDuplicates` keeps the first occurrence of each
identity key `(lowercase(city), lat.toFixed(3), lon.toFixed(3))` — the
output is a sublist of the input, its keys are pairwise distinct, and
every input key is represented; sharing city and country, or coordinate
proximity within 0.01°, does not by itself collapse two results. -/
theorem c5_dedup_by_identity_key (results : List SearchResult) :
    List.Sublist (removeDuplicates results) results ∧
    (removeDuplicates results).Pairwise (fun a b => dedupKey a ≠ dedupKey b) ∧
    ∀ x ∈ results, ∃ y ∈ removeDuplicates results, dedupKey y = dedupKey x := by
  refine ⟨removeDupAux_sublist [] results, removeDupAux_pairwise [] results, ?_⟩
  intro x hx
  rcases removeDupAux_covers [] results x hx with hin | h
  · simp at hin
  · exact h

/-- Witness for C5 as amended: on a concrete two-element list whose
entries share the identity key (same city up to case, same rounded
coordinates), the second entry is represented in the deduplicated output
by the first. -/
theorem c5_dedup_witness :
    ∃ y ∈ removeDuplicates
      [ { city := "NY", country := "USA", coordinates := ⟨1, 2⟩,
          relevanceScore := 50, rtype := .city },
        { city := "ny", country := "USA", coordinates := ⟨1, 2⟩,
          relevanceScore := 70, rtype := .station } ],
      dedupKey y = dedupKey { city := "ny", country := "USA", coordinates := ⟨1, 2⟩,
                              relevanceScore := 70, rtype := .station } := by
  exact (c5_dedup_by_identity_key _).2.2
    { city := "ny", country := "USA", coordinates := ⟨1, 2⟩,
      relevanceScore := 70, rtype := .station } (by decide)

/-- C6 counterexample: with equal relevance and equal type, a result with
an undefined distance is not sorted last — the comparator falls through to
the alphabetical tie-break, so the undefined-distance result "Aaa" sorts
before the defined-distance result "Zzz". -/
theorem c6_undefined_distance_counterexample :
    rankAndFilterResults none
      [ { city := "Zzz", country := "X", coordinates := ⟨0, 0⟩,
          relevanceScore := 50, distance := some 5, rtype := .city },
        { city := "Aaa", country := "X", coordinates := ⟨0, 0⟩,
          relevanceScore := 50, distance := none, rtype := .city } ] "q" 12 =
      [ { city := "Aaa", country := "X", coordinates := ⟨0, 0⟩,
          relevanceScore := 50, distance := none, rtype := .city },
        { city := "Zzz", country := "X", coordinates := ⟨0, 0⟩,
          relevanceScore := 50, distance := some 5, rtype := .city } ] := by
  decide

/-- C6 as amended: the sort comparator orders by relevance score
descending, then type priority descending (favorite=5 > recent=4 >
station=3 > city=2 > coordinate=1), then, only when both distances are
defined, by distance ascending (equal defined distances compare equal,
keeping input order); when either distance is undefined the remaining tie
is broken by city name, so undefined-distance results are not pushed
last. -/
theorem c6_sort_policy (a b : SearchResult) :
    (typePriority .favorite = 5 ∧ typePriority .recent = 4 ∧ typePriority .station = 3 ∧
     typePriority .city = 2 ∧ typePriority .coordinate = 1) ∧
    (b.relevanceScore < a.relevanceScore → resultCmp a b < 0) ∧
    (a.relevanceScore = b.relevanceScore →
      typePriority b.rtype < typePriority a.rtype → resultCmp a b < 0) ∧
    (∀ da db : ℚ, a.relevanceScore = b.relevanceScore →
      typePriority a.rtype = typePriority b.rtype →
      a.distance = some da → b.distance = some db →
      (da < db → resultCmp a b < 0) ∧ (da = db → resultCmp a b = 0)) ∧
    (a.relevanceScore = b.relevanceScore →
      typePriority a.rtype = typePriority b.rtype →
      (a.distance = none ∨ b.distance = none) →
      resultCmp a b = (strCmp a.city b.city : ℚ)) := by
  refine ⟨by decide, ?_, ?_, ?_, ?_⟩
  · intro h
    unfold resultCmp
    split_ifs with h1 h2
    · linarith
    · exfalso; rw [not_ne_iff] at h1; linarith
    · exfalso; rw [not_ne_iff] at h1; linarith
  · intro h hp
    unfold resultCmp
    split_ifs with h1 h2
    · exact absurd h1 (by simp [h])
    · have hlt : typePriority b.rtype - typePriority a.rtype < 0 := by omega
      exact_mod_cast hlt
    · exfalso; rw [not_ne_iff] at h2; omega
  · intro da db h hp hda hdb
    unfold resultCmp
    split_ifs with h1 h2
    · exact absurd h1 (by simp [h])
    · exact absurd h2 (by simp [hp])
    · rw [hda, hdb]
      constructor
      · intro hlt
        simpa using sub_neg.mpr hlt
      · intro heq
        simp [heq]
  · intro h hp hnone
    unfold resultCmp
    split_ifs with h1 h2
    · exact absurd h1 (by simp [h])
    · exact absurd h2 (by simp [hp])
    · rcases ha : a.distance with _ | da <;> rcases hb : b.distance with _ | db
      · rfl
      · rfl
      · rfl
      · exfalso
        rcases hnone with hn | hn
        · rw [ha] at hn; exact Option.noConfusion hn
        · rw [hb] at hn; exact Option.noConfusion hn

/-- Witness for C6 as amended, at concrete result pairs exercising each
tie-break level of the comparator. -/
theorem c6_sort_policy_witness :
    resultCmp
      { city := "A", country := "X", coordinates := ⟨0, 0⟩,
        relevanceScore := 60, rtype := .city }
      { city := "B", country := "X", coordinates := ⟨0, 0⟩,
        relevanceScore := 50, rtype := .city } < 0 ∧
    resultCmp
      { city := "A", country := "X", coordinates := ⟨0, 0⟩,
        relevanceScore := 50, rtype := .station }
      { city := "B", country := "X", coordinates := ⟨0, 0⟩,
        relevanceScore := 50, rtype := .city } < 0 ∧
    resultCmp
      { city := "A", country := "X", coordinates := ⟨0, 0⟩,
        relevanceScore := 50, distance := some 1, rtype := .city }
      { city := "B", country := "X", coordinates := ⟨0, 0⟩,
        relevanceScore := 50, distance := some 2, rtype := .city } < 0 ∧
    resultCmp
      { city := "Zzz", country := "X", coordinates := ⟨0, 0⟩,
        relevanceScore := 50, distance := some 5, rtype := .city }
      { city := "Aaa", country := "X", coordinates := ⟨0, 0⟩,
        relevanceScore := 50, distance := none, rtype := .city } =
      (strCmp "Zzz" "Aaa" : ℚ) := by
  refine ⟨?_, ?_, ?_, ?_⟩
  · exact (c6_sort_policy _ _).2.1 (by norm_num)
  · exact (c6_sort_policy _ _).2.2.1 rfl (by decide)
  · have h3 := (c6_sort_policy
      { city := "A", country := "X", coordinates := ⟨0, 0⟩,
        relevanceScore := 50, distance := some 1, rtype := .city }
      { city := "B", country := "X", coordinates := ⟨0, 0⟩,
        relevanceScore := 50, distance := some 2, rtype := .city }).2.2.2.1 1 2 rfl rfl rfl rfl
    exact h3.1 (by norm_num)
  · exact (c6_sort_policy _ _).2.2.2.2 rfl rfl (Or.inr rfl)

/-- C9 counterexample: a station record whose geo is `[0, 12]` — a
two-element array different from `(0,0)` — is dropped by the filter
(`geo[0] !== 0` fails), contradicting the claim that only missing,
non-two-element or `(0,0)` geo fields are dropped. -/
theorem c9_zero_coordinate_counterexample :
    keepStation { geo := some [0, 12], name := some "Equator Station",
                  country := some "X", uid := 1 } = false ∧
    claimedStationDrop { geo := some [0, 12], name := some "Equator Station",
                         country := some "X", uid := 1 } = false ∧
    searchMonitoringStations (some "k")
      (some [{ geo := some [0, 12], name := some "Equator Station",
               country := some "X", uid := 1 }]) "equator" = [] := by
  refine ⟨by decide, by decide, by decide⟩

/-- C9 as amended: on a successful payload, the station normalizer keeps
exactly the records whose geo is a two-element array with both
coordinates non-zero (dropping those with missing geo, wrong length, or
either coordinate zero), normalizes each kept record, and caps the result
at 6 per source. -/
theorem c9_station_filter_spec (key query : String) (records : List StationRecord) :
    searchMonitoringStations (some key) (some records) query =
      ((records.filter fun r => ! amendedStationDrop r).map (normalizeStation query)).take 6 ∧
    ∀ r : StationRecord, keepStation r = ! amendedStationDrop r := by
  have hpred : ∀ r : StationRecord, keepStation r = ! amendedStationDrop r := by
    intro r
    rcases r with ⟨geo, name, country, uid⟩
    rcases geo with _ | l
    · rfl
    · simp only [keepStation, amendedStationDrop]
      by_cases h2 : l.length = 2 <;>
        by_cases ha : l.headD 0 = 0 <;>
          by_cases hb : (l.drop 1).headD 0 = 0 <;>
            simp [h2, ha, hb]
  refine ⟨?_, hpred⟩
  have : records.filter keepStation = records.filter fun r => ! amendedStationDrop r := by
    apply List.filter_congr
    intro r _
    exact hpred r
  simp [searchMonitoringStations, this]

/-! ## Rounding lemmas -/

/-- `jsRound` maps a value between two integers to an integer between
them. -/
theorem jsRound_bounds {lo hi : ℤ} {q : ℚ} (h1 : (lo : ℚ) ≤ q) (h2 : q ≤ (hi : ℚ)) :
    lo ≤ jsRound q ∧ jsRound q ≤ hi := by
  unfold jsRound
  refine ⟨Int.le_floor.mpr (by push_cast; linarith), ?_⟩
  have h3 : ⌊q + 1/2⌋ < hi + 1 := Int.floor_lt.mpr (by push_cast; linarith)
  omega

/-- `jsRound` preserves non-negativity. -/
theorem jsRound_nonneg {q : ℚ} (h : 0 ≤ q) : 0 ≤ jsRound q := by
  unfold jsRound
  exact Int.le_floor.mpr (by push_cast; linarith)

/-- `jsRound` commutes with adding an integer. -/
theorem jsRound_add_int (q : ℚ) (n : ℤ) : jsRound (q + (n : ℚ)) = jsRound q + n := by
  unfold jsRound
  rw [add_right_comm, Int.floor_add_int]

/-- Rounding a clamped-to-[10,300] value shifted by the integer base
variation lands in the shifted interval. -/
theorem clamp_round_bounds (y : ℚ) (bv : ℤ) :
    10 + bv ≤ jsRound (max 10 (min 300 y) + (bv : ℚ)) ∧
    jsRound (max 10 (min 300 y) + (bv : ℚ)) ≤ 300 + bv := by
  rw [jsRound_add_int]
  have hx1 : (10 : ℚ) ≤ max 10 (min 300 y) := le_max_left _ _
  have hx2 : max 10 (min 300 y) ≤ 300 := max_le (by norm_num) (min_le_left _ _)
  have hb := jsRound_bounds (show ((10 : ℤ) : ℚ) ≤ max 10 (min 300 y) by exact_mod_cast hx1)
    (show max 10 (min 300 y) ≤ ((300 : ℤ) : ℚ) by exact_mod_cast hx2)
  omega

/-! ## Forecast-loop lemmas -/

/-- The loop emits exactly `fuel` points. -/
theorem forecastLoop_length (env : ForecastEnv) (now : ℤ) (w : ℚ) (bv : ℤ) :
    ∀ (fuel i : ℕ) (b : ℚ), (forecastLoop env now w bv fuel i b).length = fuel := by
  intro fuel
  induction fuel with
  | zero => intro i b; rfl
  | succ n ih =>
    intro i b
    simp only [forecastLoop, List.length_cons, ih]

/-- The loop's timestamps are `now + (i+j)·3600000` for `j < fuel`. -/
theorem forecastLoop_timestamps (env : ForecastEnv) (now : ℤ) (w : ℚ) (bv : ℤ) :
    ∀ (fuel i : ℕ) (b : ℚ),
      (forecastLoop env now w bv fuel i b).map (fun p => p.timestamp) =
        (List.range fuel).map (fun j => now + ((i + j : ℕ) : ℤ) * 3600000) := by
  intro fuel
  induction fuel with
  | zero => intro i b; rfl
  | succ n ih =>
    intro i b
    rw [List.range_succ_eq_map]
    simp only [forecastLoop, List.map_cons, List.map_map]
    congr 1
    rw [ih]
    apply List.map_congr_left
    intro j _
    simp only [Function.comp]
    push_cast
    ring

/-- Every emitted point's aqi lies in `[10 + bv, 300 + bv]`. -/
theorem forecastLoop_aqi_bounds (env : ForecastEnv) (now : ℤ) (w : ℚ) (bv : ℤ) :
    ∀ (fuel i : ℕ) (b : ℚ), ∀ p ∈ forecastLoop env now w bv fuel i b,
      10 + bv ≤ p.aqi ∧ p.aqi ≤ 300 + bv := by
  intro fuel
  induction fuel with
  | zero => intro i b p hp; simp [forecastLoop] at hp
  | succ n ih =>
    intro i b p hp
    simp only [forecastLoop] at hp
    rcases List.mem_cons.mp hp with heq | hp'
    · subst heq
      exact clamp_round_bounds _ bv
    · exact ih _ _ p hp'

/-- C3 counterexample: starting from AQI 300 in Beijing (base variation
+20) at a concrete, realisable time (noon on a Monday, `sin(0) = 0`,
`Math.random() = 0.5`) the very first forecast point has aqi 320 > 300,
because the clamp to [10,300] is applied before the city base variation is
added. -/
theorem c3_forecast_bounds_counterexample :
    ((generateRealisticForecast 300 "Beijing" [] 0
        { hourOf := fun _ => 12, dayOf := fun _ => 1, weatherSin := fun _ => 0,
          rVar := fun _ => 1/2, rPm25 := fun _ => 1/2, rPm10 := fun _ => 1/2 }).map
      (fun p => p.aqi)).headD 0 = 320 ∧ ¬ ((320 : ℤ) ≤ 300) := by
  exact ⟨by decide, by decide⟩

/-- C3 as amended: for every starting AQI, city, history, start time and
non-deterministic environment, the generated forecast has exactly 48
points whose timestamps are `now + j·3600000` for `j = 0,…,47` (hence
strictly increasing at 1-hour spacing starting at now), and every point's
aqi lies in `[10 + v, 300 + v]`, where `v` is the city's base variation
(0 for cities without a tuned profile, so exactly `[10, 300]` for them;
Beijing +20, Mumbai +25, Los Angeles +10, Tokyo +5, London −5,
Sydney −15). -/
theorem c3_forecast_shape (currentAqi : ℚ) (city : String) (hist : List ℚ)
    (now : ℤ) (env : ForecastEnv) :
    (generateRealisticForecast currentAqi city hist now env).length = 48 ∧
    (generateRealisticForecast currentAqi city hist now env).map (fun p => p.timestamp) =
      (List.range 48).map (fun j : ℕ => now + (j : ℤ) * 3600000) ∧
    ∀ p ∈ generateRealisticForecast currentAqi city hist now env,
      10 + (getLocationAQIFactors city).baseVariation ≤ p.aqi ∧
      p.aqi ≤ 300 + (getLocationAQIFactors city).baseVariation := by
  unfold generateRealisticForecast
  dsimp only
  refine ⟨forecastLoop_length env now _ _ 48 0 currentAqi, ?_,
    forecastLoop_aqi_bounds env now _ _ 48 0 currentAqi⟩
  rw [forecastLoop_timestamps]
  apply List.map_congr_left
  intro j _
  norm_num

/-- Witness for C3 as amended at a concrete environment: the first point
of the forecast for an untuned city ("Nowhere", base variation 0) is
`⟨0, 80, 53, 72⟩` and lies in [10, 300]. -/
theorem c3_forecast_shape_witness :
    10 + (getLocationAQIFactors "Nowhere").baseVariation ≤
      ({ timestamp := 0, aqi := 80, pm25 := 53, pm10 := 72 } : ForecastData).aqi ∧
    ({ timestamp := 0, aqi := 80, pm25 := 53, pm10 := 72 } : ForecastData).aqi ≤
      300 + (getLocationAQIFactors "Nowhere").baseVariation := by
  exact (c3_forecast_shape 80 "Nowhere" [] 0
    { hourOf := fun _ => 12, dayOf := fun _ => 1, weatherSin := fun _ => 0,
      rVar := fun _ => 1/2, rPm25 := fun _ => 1/2, rPm10 := fun _ => 1/2 }).2.2
    { timestamp := 0, aqi := 80, pm25 := 53, pm10 := 72 } (by decide)

/-! ## Aggregator lemmas -/

/-- When the cache misses and every adapter attempt fails, `getCurrentAQI`
returns the synthetic reading and leaves the cache unchanged. -/
theorem getCurrentAQI_all_fail (cfg : Config) (oW oO oI : Except String AQIData)
    (cache : AqiCache) (now : ℤ) (loc : LocationData) (e : MockEnv)
    (hcache : aqiCacheGet cache (aqiCacheKey loc) now = none)
    (hW : ∀ d, getWAQIData cfg oW ≠ .ok d)
    (hO : ∀ d, getOpenWeatherAQI cfg oO ≠ .ok d)
    (hI : ∀ d, getIQAirData cfg oI ≠ .ok d) :
    getCurrentAQI cfg oW oO oI cache now loc e = (getMockAQI loc now e, cache) := by
  unfold getCurrentAQI
  dsimp only
  rw [hcache]
  rcases hW' : getWAQIData cfg oW with m | d
  · rcases hO' : getOpenWeatherAQI cfg oO with m2 | d2
    · rcases hI' : getIQAirData cfg oI with m3 | d3
      · rfl
      · exact absurd hI' (hI d3)
    · exact absurd hO' (hO d2)
  · exact absurd hW' (hW d)

/-- The synthetic reading is well-formed whenever the random draws are
non-negative (as `Math.random()` always is). -/
theorem getMockAQI_wellFormed (loc : LocationData) (now : ℤ) (e : MockEnv)
    (hr1 : 0 ≤ e.rPm25) (hr2 : 0 ≤ e.rPm10) (hr3 : 0 ≤ e.rO3)
    (hr4 : 0 ≤ e.rNo2) (hr5 : 0 ≤ e.rSo2) (hr6 : 0 ≤ e.rCo) :
    wellFormedReading loc (getMockAQI loc now e) := by
  unfold getMockAQI wellFormedReading
  dsimp only
  have haZ : (0 : ℤ) ≤ max 10 (min 300 (jsRound (getLocationBaseAQI loc.city +
      (e.hourSin * 20 + (e.rVariation - 1/2) * 30 +
        if e.rWeather > 7/10 then -20 else 0)))) :=
    le_trans (by norm_num) (le_max_left _ _)
  have haZ' : max 10 (min 300 (jsRound (getLocationBaseAQI loc.city +
      (e.hourSin * 20 + (e.rVariation - 1/2) * 30 +
        if e.rWeather > 7/10 then -20 else 0)))) ≤ 500 :=
    le_trans (max_le (by norm_num) (min_le_left _ _)) (by norm_num)
  have ha0 : (0 : ℚ) ≤ ((max 10 (min 300 (jsRound (getLocationBaseAQI loc.city +
      (e.hourSin * 20 + (e.rVariation - 1/2) * 30 +
        if e.rWeather > 7/10 then -20 else 0)))) : ℤ) : ℚ) := by exact_mod_cast haZ
  refine ⟨by exact_mod_cast haZ, by exact_mod_cast haZ', ?_, ?_, ?_, ?_, ?_, ?_, rfl⟩ <;>
    refine Int.cast_nonneg.mpr (jsRound_nonneg (add_nonneg
      (mul_nonneg ha0 (by norm_num)) (mul_nonneg (by assumption) (by norm_num))))

/-- C2 counterexample: with all three adapters configured and all three
returning HTTP errors, `getCurrentAQI` returns the synthetic reading but
stores nothing in the cache — the returned cache is still empty and holds
no entry under the location's fingerprint. -/
theorem c2_synthetic_not_cached_counterexample :
    getCurrentAQI ⟨some "k", some "k", some "k"⟩ (.error "HTTP 500") (.error "HTTP 500")
        (.error "HTTP 500") [] 0 nycLoc sampleHalfEnv =
      (getMockAQI nycLoc 0 sampleHalfEnv, []) ∧
    assocFind (aqiCacheKey nycLoc) ([] : AqiCache) = none := by
  exact ⟨by decide, rfl⟩

/-- C2 as amended: when the cache misses and every source adapter in the
priority list fails, `getCurrentAQI` generates a synthetic reading and
returns it WITHOUT storing it in the cache — the cache is left unchanged
(only successful adapter responses are cached). -/
theorem c2_all_sources_fail_uncached (cfg : Config) (oW oO oI : Except String AQIData)
    (cache : AqiCache) (now : ℤ) (loc : LocationData) (e : MockEnv)
    (hcache : aqiCacheGet cache (aqiCacheKey loc) now = none)
    (hW : ∀ d, getWAQIData cfg oW ≠ .ok d)
    (hO : ∀ d, getOpenWeatherAQI cfg oO ≠ .ok d)
    (hI : ∀ d, getIQAirData cfg oI ≠ .ok d) :
    getCurrentAQI cfg oW oO oI cache now loc e = (getMockAQI loc now e, cache) :=
  getCurrentAQI_all_fail cfg oW oO oI cache now loc e hcache hW hO hI

/-- Witness for C2 as amended at concrete inputs: three configured
adapters all timing out leave the empty cache empty. -/
theorem c2_all_sources_fail_uncached_witness :
    getCurrentAQI ⟨some "w", some "o", some "i"⟩ (.error "timeout") (.error "timeout")
        (.error "timeout") [] 5 cairoLoc sampleZeroEnv =
      (getMockAQI cairoLoc 5 sampleZeroEnv, []) := by
  exact c2_all_sources_fail_uncached ⟨some "w", some "o", some "i"⟩ _ _ _ [] 5 _ _ rfl
    (fun d hd => Except.noConfusion hd) (fun d hd => Except.noConfusion hd)
    (fun d hd => Except.noConfusion hd)

/-! ## Search membership lemmas -/

/-- Membership is preserved by `sortInsert`. -/
theorem mem_sortInsert (x y : SearchResult) (l : List SearchResult) :
    x ∈ sortInsert y l ↔ x = y ∨ x ∈ l := by
  induction l with
  | nil => simp [sortInsert]
  | cons z zs ih =>
    simp only [sortInsert]
    split_ifs
    · simp [List.mem_cons]
    · simp only [List.mem_cons, ih]
      tauto

/-- Membership is preserved by `sortResults`. -/
theorem mem_sortResults (x : SearchResult) (l : List SearchResult) :
    x ∈ sortResults l ↔ x ∈ l := by
  induction l with
  | nil => simp [sortResults]
  | cons z zs ih =>
    simp only [sortResults, mem_sortInsert, ih, List.mem_cons]

/-- With no distance assignment, `rankAndFilterResults` only permutes and
truncates. -/
theorem mem_rankAndFilterResults_none {r : SearchResult} {results : List SearchResult}
    {q : String} {m : ℕ} (h : r ∈ rankAndFilterResults none results q m) :
    r ∈ results := by
  unfold rankAndFilterResults at h
  dsimp only at h
  exact (mem_sortResults r results).mp (List.take_subset _ _ h)

/-- Every gazetteer search result is a gazetteer entry tagged as a
city. -/
theorem mem_searchPredefinedLocations {r : SearchResult} {q : String}
    (h : r ∈ searchPredefinedLocations q) :
    r.rtype = .city ∧ ∃ p ∈ predefinedLocations,
      r.city = p.city ∧ r.country = p.country ∧ r.coordinates = p.coordinates := by
  unfold searchPredefinedLocations at h
  dsimp only at h
  rcases List.mem_map.mp (List.take_subset _ _ h) with ⟨p, hp, heq⟩
  subst heq
  exact ⟨rfl, p, (List.mem_filter.mp hp).1, rfl, rfl, rfl⟩

/-- Every keyless coordinate-search result is a coordinate placeholder
with country "Unknown" and score 100. -/
theorem mem_searchByCoordinates_keyless {r : SearchResult} {q : String}
    (h : r ∈ searchByCoordinates (fun lat lon => some (reverseGeocodeNoKey lat lon)) q) :
    r.rtype = .coordinate ∧ r.country = "Unknown" ∧ r.relevanceScore = 100 := by
  unfold searchByCoordinates at h
  rcases hpc : parseCoordQuery q with _ | ⟨lat, lon⟩ <;> rw [hpc] at h <;> dsimp only at h
  · simp at h
  · split_ifs at h
    · simp at h
    · rw [List.mem_singleton] at h
      subst h
      exact ⟨rfl, rfl, rfl⟩

/-- C1 counterexample: with zero credentials the coordinate query "1,2"
yields exactly one result, the synthesized placeholder
"Location 1.0000, 2.0000", whose city names no gazetteer entry — so the
result list is not drawn from the built-in gazetteer. -/
theorem c1_gazetteer_only_counterexample :
    ((searchLocationsKeyless "1,2" [] 0 8).1.map (fun r => r.city)) =
      ["Location 1.0000, 2.0000"] ∧
    predefinedLocations.all (fun p => p.city ≠ "Location 1.0000, 2.0000") = true := by
  exact ⟨by decide, by decide⟩

/-- C1 as amended: with no upstream credential configured, (a) on a cache
miss `getCurrentAQI` returns the well-formed synthetic reading and leaves
the cache unchanged, and (b) `searchLocations` (which never throws — it is
a total function of its inputs) returns a list each of whose entries is
either a gazetteer entry tagged as a city or, for queries matching the
`lat,lon` pattern, a synthesized coordinate placeholder (country
"Unknown", score 100). -/
theorem c1_fallback_totality (cfg : Config) (oW oO oI : Except String AQIData)
    (cache : AqiCache) (now : ℤ) (loc : LocationData) (e : MockEnv)
    (h1 : cfg.waqiKey = none) (h2 : cfg.openWeatherKey = none) (h3 : cfg.iqairKey = none)
    (hcache : aqiCacheGet cache (aqiCacheKey loc) now = none)
    (hr1 : 0 ≤ e.rPm25) (hr2 : 0 ≤ e.rPm10) (hr3 : 0 ≤ e.rO3)
    (hr4 : 0 ≤ e.rNo2) (hr5 : 0 ≤ e.rSo2) (hr6 : 0 ≤ e.rCo) :
    (getCurrentAQI cfg oW oO oI cache now loc e = (getMockAQI loc now e, cache) ∧
      wellFormedReading loc (getMockAQI loc now e)) ∧
    ∀ (query : String) (snow : ℤ) (maxResults : ℕ) (r : SearchResult),
      r ∈ (searchLocationsKeyless query [] snow maxResults).1 →
      (r.rtype = .city ∧ ∃ p ∈ predefinedLocations,
        r.city = p.city ∧ r.country = p.country ∧ r.coordinates = p.coordinates) ∨
      (r.rtype = .coordinate ∧ r.country = "Unknown" ∧ r.relevanceScore = 100) := by
  constructor
  · refine ⟨getCurrentAQI_all_fail cfg oW oO oI cache now loc e hcache ?_ ?_ ?_,
      getMockAQI_wellFormed loc now e hr1 hr2 hr3 hr4 hr5 hr6⟩
    · intro d hd
      unfold getWAQIData at hd
      rw [h1] at hd
      exact Except.noConfusion hd
    · intro d hd
      unfold getOpenWeatherAQI at hd
      rw [h2] at hd
      exact Except.noConfusion hd
    · intro d hd
      unfold getIQAirData at hd
      rw [h3] at hd
      exact Except.noConfusion hd
  · intro query snow maxResults r hr
    unfold searchLocationsKeyless at hr
    split_ifs at hr with hlen
    · simp at hr
    · simp only [searchCacheGet, assocFind] at hr
      have hr2 : r ∈ removeDuplicates
          (searchByCoordinates (fun lat lon => some (reverseGeocodeNoKey lat lon)) query ++
            searchCitiesNoKey query ++ searchPredefinedLocations query) :=
        mem_rankAndFilterResults_none hr
      have hr3 := (removeDupAux_sublist [] _).subset hr2
      rcases List.mem_append.mp hr3 with h12 | hC
      · rcases List.mem_append.mp h12 with hA | hB
        · exact Or.inr (mem_searchByCoordinates_keyless hA)
        · exact Or.inl (mem_searchPredefinedLocations hB)
      · exact Or.inl (mem_searchPredefinedLocations hC)

/-- Witness for C1 as amended at concrete inputs: a keyless configuration
over an empty cache yields the synthetic reading for an unknown city, and
the keyless search for "tokyo" yields the gazetteer's Tokyo entry. -/
theorem c1_fallback_totality_witness :
    (getCurrentAQI ⟨none, none, none⟩ (.error "x") (.error "y") (.error "z") [] 0
        nowhereLoc sampleHalfEnv =
      (getMockAQI nowhereLoc 0 sampleHalfEnv, []) ∧
      wellFormedReading nowhereLoc (getMockAQI nowhereLoc 0 sampleHalfEnv)) ∧
    ((tokyoResult.rtype = .city ∧ ∃ p ∈ predefinedLocations,
        tokyoResult.city = p.city ∧ tokyoResult.country = p.country ∧
        tokyoResult.coordinates = p.coordinates) ∨
      (tokyoResult.rtype = .coordinate ∧ tokyoResult.country = "Unknown" ∧
        tokyoResult.relevanceScore = 100)) := by
  constructor
  · exact (c1_fallback_totality ⟨none, none, none⟩ (.error "x") (.error "y") (.error "z")
      [] 0 nowhereLoc sampleHalfEnv rfl rfl rfl rfl (by norm_num [sampleHalfEnv])
      (by norm_num [sampleHalfEnv]) (by norm_num [sampleHalfEnv])
      (by norm_num [sampleHalfEnv]) (by norm_num [sampleHalfEnv])
      (by norm_num [sampleHalfEnv])).1
  · exact (c1_fallback_totality ⟨none, none, none⟩ (.error "x") (.error "y") (.error "z")
      [] 0 nowhereLoc sampleHalfEnv rfl rfl rfl rfl (by norm_num [sampleHalfEnv])
      (by norm_num [sampleHalfEnv]) (by norm_num [sampleHalfEnv])
      (by norm_num [sampleHalfEnv]) (by norm_num [sampleHalfEnv])
      (by norm_num [sampleHalfEnv])).2 "tokyo" 0 8 tokyoResult (by decide)

end AQIVis
